/-
  Verification development for `backup.py` of masterkain/postgresql-backup-s3.

  The script is shallowly embedded: strings are `List Char`, external
  commands (psql, pg_dump, openssl, aws) are black boxes whose observable
  outcomes (exit status, produced files, listing text) are explicit
  parameters, and the filesystem is an explicit value threaded through the
  pipeline.  Every definition mirrors the corresponding Python code;
  `backup.py` line numbers are cited next to each definition.
-/
import Mathlib

namespace PgBackup

/-! ### Python string helpers

`str.split()` (no argument) splits on runs of whitespace and drops empty
fields; `str.splitlines()` splits on line terminators (the listing text
only ever contains `\n`); `str.lower()` lower-cases; `str.isdigit()` is
true for a non-empty all-digit string (ASCII digits suffice here). -/

def pyIsSpace (c : Char) : Bool :=
  c = ' ' || c = '\t' || c = '\n' || c = '\r' || c = '\x0b' || c = '\x0c'

def splitWsAux : List Char → List Char → List (List Char)
  | [], acc => if acc.isEmpty then [] else [acc.reverse]
  | c :: rest, acc =>
    if pyIsSpace c then
      if acc.isEmpty then splitWsAux rest [] else acc.reverse :: splitWsAux rest []
    else splitWsAux rest (c :: acc)

/-- Python `str.split()` with no separator argument. -/
def splitWs (l : List Char) : List (List Char) := splitWsAux l []

def splitlinesAux : List Char → List Char → List (List Char)
  | [], acc => if acc.isEmpty then [] else [acc.reverse]
  | c :: rest, acc =>
    if c = '\n' then acc.reverse :: splitlinesAux rest []
    else splitlinesAux rest (c :: acc)

/-- Python `str.splitlines()` for newline-terminated text. -/
def splitlinesNL (l : List Char) : List (List Char) := splitlinesAux l []

def pyLower (l : List Char) : List Char := l.map Char.toLower

/-- Python `str.isdigit()` (ASCII digits). -/
def pyIsDigitStr (l : List Char) : Bool := !l.isEmpty && l.all Char.isDigit

/-- Python `int(...)` on an all-digit string. -/
def digitsToNat (l : List Char) : Nat :=
  l.foldl (fun acc c => 10 * acc + (c.toNat - 48)) 0

/-- Field `n` of a whitespace-split line (`parts[n]` in the script, total
with a default for out-of-range access). -/
def fieldAt (l : List Char) (n : Nat) : List Char := (splitWs l).getD n []

/-! ### The retention filename regex (backup.py line 228)

`filename_pattern = ^(.*)_(\d{4}-\d{2}-\d{2}(?:T\d{2}:\d{2}:\d{2}Z|T\d{6}Z))\.sql\.gz(?:\.enc)?$`

Semantics of Python `re.match` on this anchored pattern:
the whole string must decompose as `g1 ++ "_" ++ ts ++ ".sql.gz"` or
`g1 ++ "_" ++ ts ++ ".sql.gz.enc"`, where `ts` has one of the two
timestamp shapes, `g1` contains no newline (`.` does not match `\n`),
and — `(.*)` being greedy — `g1` is the longest prefix admitting such a
decomposition.  `$` also matches just before one trailing newline. -/

/-- Character-template matcher: `d` in the template stands for `\d`,
every other template character stands for itself. -/
def matchTemplate : List Char → List Char → Bool
  | [], [] => true
  | t :: ts, c :: cs =>
    (if t = 'd' then c.isDigit else c = t) && matchTemplate ts cs
  | _, _ => false

/-- The `T\d{6}Z` timestamp alternative: `\d{4}-\d{2}-\d{2}T\d{6}Z`. -/
def tsCompact (l : List Char) : Bool := matchTemplate "dddd-dd-ddTddddddZ".data l

/-- The `T\d{2}:\d{2}:\d{2}Z` timestamp alternative. -/
def tsColon (l : List Char) : Bool := matchTemplate "dddd-dd-ddTdd:dd:ddZ".data l

def isTs (l : List Char) : Bool := tsColon l || tsCompact l

/-- `(.*)` cannot span a newline. -/
def noNL (l : List Char) : Bool := !l.contains '\n'

/-- In a non-multiline Python pattern, `$` matches at the end of the string
or just before a single trailing newline. -/
def pyDollarStrip (l : List Char) : List Char :=
  if l.getLast? = some '\n' then l.dropLast else l

/-- Remove a literal suffix, if present. -/
def stripSfx (l suf : List Char) : Option (List Char) :=
  if suf.length ≤ l.length && l.drop (l.length - suf.length) == suf then
    some (l.take (l.length - suf.length))
  else none

/-- Is position `i` of `r` a valid split `r = g1 ++ "_" ++ ts` with
`|g1| = i`? -/
def splitOk (r : List Char) (i : Nat) : Bool :=
  (r.drop i).head? = some '_' && noNL (r.take i) && isTs (r.drop (i + 1))

/-- Largest valid split position `≤ n` (greedy `(.*)` wants the longest
group 1). -/
def bestSplit (r : List Char) : Nat → Option Nat
  | 0 => if splitOk r 0 then some 0 else none
  | n + 1 => if splitOk r (n + 1) then some (n + 1) else bestSplit r n

def sqlGz : List Char := ".sql.gz".data
def sqlGzEnc : List Char := ".sql.gz.enc".data

def reMatchCore (r : List Char) : Option (List Char × List Char) :=
  match bestSplit r r.length with
  | some i => some (r.take i, r.drop (i + 1))
  | none => none

/-- `filename_pattern.match(file_name)`, returning `(group 1, group 2)` =
(database name, timestamp) on a match (backup.py lines 228, 290, 296). -/
def filename_pattern (s : List Char) : Option (List Char × List Char) :=
  let s := pyDollarStrip s
  match stripSfx s sqlGzEnc with
  | some r => reMatchCore r
  | none =>
    match stripSfx s sqlGz with
    | some r => reMatchCore r
    | none => none

/-! ### Timestamps (backup.py lines 278-287, 245-257)

`datetime.strptime(f"{date_str} {time_str}", "%Y-%m-%d %H:%M:%S")` on the
zero-padded timestamps that `aws s3 ls` prints, followed by the range and
calendar validation that `datetime` enforces.  Two timezone-aware UTC
datetimes compare lexicographically on their components. -/

structure PyDateTime where
  year : Nat
  month : Nat
  day : Nat
  hour : Nat
  minute : Nat
  second : Nat
deriving DecidableEq

/-- `datetime.__lt__` for two UTC-aware datetimes. -/
def dtLt (a b : PyDateTime) : Bool :=
  if a.year ≠ b.year then decide (a.year < b.year)
  else if a.month ≠ b.month then decide (a.month < b.month)
  else if a.day ≠ b.day then decide (a.day < b.day)
  else if a.hour ≠ b.hour then decide (a.hour < b.hour)
  else if a.minute ≠ b.minute then decide (a.minute < b.minute)
  else decide (a.second < b.second)

def isLeap (y : Nat) : Bool := y % 4 = 0 && (y % 100 ≠ 0 || y % 400 = 0)

def daysInMonth (y mo : Nat) : Nat :=
  if mo = 2 then (if isLeap y then 29 else 28)
  else if mo = 4 ∨ mo = 6 ∨ mo = 9 ∨ mo = 11 then 30
  else 31

/-- Digit value of position `i` (only used after a template match has
established the shape). -/
def dg (l : List Char) (i : Nat) : Nat := (l.getD i '0').toNat - 48

/-- `datetime.strptime(s, "%Y-%m-%d %H:%M:%S")` on the zero-padded
`aws s3 ls` timestamp shape, with `datetime`'s own range checks. -/
def parseDateTime (l : List Char) : Option PyDateTime :=
  if matchTemplate "dddd-dd-dd dd:dd:dd".data l then
    let y := 1000 * dg l 0 + 100 * dg l 1 + 10 * dg l 2 + dg l 3
    let mo := 10 * dg l 5 + dg l 6
    let d := 10 * dg l 8 + dg l 9
    let h := 10 * dg l 11 + dg l 12
    let mi := 10 * dg l 14 + dg l 15
    let s := 10 * dg l 17 + dg l 18
    if 1 ≤ y ∧ 1 ≤ mo ∧ mo ≤ 12 ∧ 1 ≤ d ∧ d ≤ daysInMonth y mo
        ∧ h ≤ 23 ∧ mi ≤ 59 ∧ s ≤ 59 then
      some ⟨y, mo, d, h, mi, s⟩
    else none
  else none

/-- The `DELETE_OLDER_THAN` check of backup.py lines 248-251: split on
whitespace, require exactly two fields, the first all digits, the second
`day`/`days` up to case; return the parsed day count. -/
def parseRetention (s : List Char) : Option Nat :=
  match splitWs s with
  | [a, b] =>
    if pyIsDigitStr a && (pyLower b == "day".data || pyLower b == "days".data) then
      some (digitsToNat a)
    else none
  | _ => none

/-! `timedelta(days=n)` subtraction: the civil-calendar day arithmetic
behind `cutoff_date = datetime.now(utc) - timedelta(days=days_to_subtract)`
(backup.py line 253).  Standard civil-from-days/days-from-civil
conversions; `Int.tdiv` truncates toward zero exactly as the reference
algorithm expects. -/

def daysFromCivil (y m d : Int) : Int :=
  let y2 := if m ≤ 2 then y - 1 else y
  let era := Int.tdiv (if 0 ≤ y2 then y2 else y2 - 399) 400
  let yoe := y2 - era * 400
  let mp := if 2 < m then m - 3 else m + 9
  let doy := Int.tdiv (153 * mp + 2) 5 + d - 1
  let doe := yoe * 365 + Int.tdiv yoe 4 - Int.tdiv yoe 100 + doy
  era * 146097 + doe

def civilFromDays (z : Int) : Int × Int × Int :=
  let era := Int.tdiv (if 0 ≤ z then z else z - 146096) 146097
  let doe := z - era * 146097
  let yoe := Int.tdiv (doe - Int.tdiv doe 1460 + Int.tdiv doe 36524 - Int.tdiv doe 146096) 365
  let y := yoe + era * 400
  let doy := doe - (365 * yoe + Int.tdiv yoe 4 - Int.tdiv yoe 100)
  let mp := Int.tdiv (5 * doy + 2) 153
  let d := doy - Int.tdiv (153 * mp + 2) 5 + 1
  let m := if mp < 10 then mp + 3 else mp - 9
  (if m ≤ 2 then y + 1 else y, m, d)

/-- `t - timedelta(days = n)` (time of day unchanged). -/
def subDays (t : PyDateTime) (n : Nat) : PyDateTime :=
  let z := daysFromCivil t.year t.month t.day - n
  let c := civilFromDays z
  ⟨c.1.toNat, c.2.1.toNat, c.2.2.toNat, t.hour, t.minute, t.second⟩

/-! ### The retention sweep (backup.py lines 221-318) -/

/-- Per-line outcome of the `for line in lines` loop (lines 265-315). -/
inductive Decision where
  | malformed                     -- fewer than 4 fields (lines 268-271)
  | badDate                       -- timestamp parse failure (lines 284-287)
  | skipPattern                   -- filename regex mismatch (lines 291-294)
  | skipInactive                  -- database not active (lines 299-302)
  | delete (key : List Char)      -- delete command issued (lines 305-312)
  | keep                          -- not older than cutoff (lines 313-315)
deriving DecidableEq

def isDelete : Decision → Bool
  | .delete _ => true
  | _ => false

/-- The decision the loop body takes for one listing line. -/
def lineDecision (active : List (List Char)) (cutoff : PyDateTime)
    (line : List Char) : Decision :=
  let parts := splitWs line
  if parts.length < 4 then .malformed
  else
    match parseDateTime (parts.getD 0 [] ++ ' ' :: parts.getD 1 []) with
    | none => .badDate
    | some lm =>
      match filename_pattern (parts.getD 3 []) with
      | none => .skipPattern
      | some (db, _) =>
        if !(active.contains db) then .skipInactive
        else if dtLt lm cutoff then .delete (parts.getD 3 []) else .keep

/-- The counters of lines 259-263 plus the trace of issued `aws s3 rm`
commands. -/
structure SweepCounts where
  deleted : Nat
  kept : Nat
  skipped_db : Nat
  skipped_pat : Nat
  errors : Nat
  deletes_issued : List (List Char)
deriving DecidableEq

def SweepCounts.zero : SweepCounts := ⟨0, 0, 0, 0, 0, []⟩

/-- One iteration of the loop: update the counters according to the
decision; a delete command is issued for `delete` decisions and its
success (`delOk`) decides between the deleted and error counters. -/
def stepLine (active : List (List Char)) (cutoff : PyDateTime)
    (delOk : List Char → Bool) (acc : SweepCounts) (line : List Char) :
    SweepCounts :=
  match lineDecision active cutoff line with
  | .malformed => { acc with errors := acc.errors + 1 }
  | .badDate => { acc with errors := acc.errors + 1 }
  | .skipPattern => { acc with skipped_pat := acc.skipped_pat + 1 }
  | .skipInactive => { acc with skipped_db := acc.skipped_db + 1 }
  | .keep => { acc with kept := acc.kept + 1 }
  | .delete k =>
    if delOk k then
      { acc with deleted := acc.deleted + 1,
                 deletes_issued := acc.deletes_issued ++ [k] }
    else
      { acc with errors := acc.errors + 1,
                 deletes_issued := acc.deletes_issued ++ [k] }

def runSweepGo (active : List (List Char)) (cutoff : PyDateTime)
    (delOk : List Char → Bool) : List (List Char) → SweepCounts → SweepCounts
  | [], acc => acc
  | l :: ls, acc => runSweepGo active cutoff delOk ls (stepLine active cutoff delOk acc l)

def runSweep (active : List (List Char)) (cutoff : PyDateTime)
    (lines : List (List Char)) (delOk : List Char → Bool) : SweepCounts :=
  runSweepGo active cutoff delOk lines SweepCounts.zero

/-- The key the sweep would delete for a line, if any. -/
def deleteKey (active : List (List Char)) (cutoff : PyDateTime)
    (line : List Char) : Option (List Char) :=
  match lineDecision active cutoff line with
  | .delete k => some k
  | _ => none

/-- All delete commands a sweep issues, line by line. -/
def deleteTrace (active : List (List Char)) (cutoff : PyDateTime)
    (lines : List (List Char)) : List (List Char) :=
  lines.filterMap (deleteKey active cutoff)

/-- Overall result of `cleanup_old_backups` (backup.py lines 221-318). -/
inductive CleanupOutcome where
  | listFailed                    -- listing command failed (lines 233-235)
  | nothingToDo                   -- empty listing (lines 236-243)
  | badRetention                  -- DELETE_OLDER_THAN unparseable (lines 255-257)
  | swept (r : SweepCounts)       -- the loop ran (lines 265-318)
deriving DecidableEq

/-- `cleanup_old_backups(bucket, prefix, older_than_str, active_databases)`.
The bucket/prefix/endpoint arguments only shape command strings and are
dropped; `listing` is the (stripped) stdout of `aws s3 ls`, `none` on
command failure; `now` is the clock reading of line 253; `delOk` tells
which `aws s3 rm` invocations succeed. -/
def cleanup_old_backups (listing : Option (List Char)) (older_than : List Char)
    (now : PyDateTime) (active : List (List Char))
    (delOk : List Char → Bool) : CleanupOutcome :=
  match listing with
  | none => .listFailed
  | some out =>
    if out.isEmpty then .nothingToDo
    else
      let lines := splitlinesNL out
      if lines.isEmpty then .nothingToDo
      else
        match parseRetention older_than with
        | none => .badRetention
        | some days =>
          .swept (runSweep active (subDays now days) lines delOk)

/-- The delete commands an outcome issued. -/
def deletesOf : CleanupOutcome → List (List Char)
  | .swept r => r.deletes_issued
  | _ => []

def sweptHappened : CleanupOutcome → Bool
  | .swept _ => true
  | _ => false

/-! ### Local filesystem model

The pipeline's disk state: a list of `(path, size)` entries plus the set
of paths on which `os.remove` raises `OSError`.  External commands are
black boxes; their observable effect (leaving their single output file,
or not) comes in through the per-database oracle below. -/

structure FS where
  files : List (List Char × Nat)
  stuck : List (List Char)
deriving DecidableEq

/-- `os.path.exists(p)`. -/
def FS.pathExists (fs : FS) (p : List Char) : Bool :=
  fs.files.any (fun q => q.1 == p)

/-- `os.path.getsize(p)` (0 when absent; only consulted after an
existence check in the code). -/
def FS.size (fs : FS) (p : List Char) : Nat :=
  ((fs.files.find? (fun q => q.1 == p)).map Prod.snd).getD 0

/-- A command writing file `p` with size `n`. -/
def FS.put (fs : FS) (p : List Char) (n : Nat) : FS :=
  { fs with files := (p, n) :: fs.files.filter (fun q => q.1 != p) }

/-- `os.remove(p)` inside `try/except OSError`: returns the new state and
whether the removal succeeded. -/
def FS.tryRemove (fs : FS) (p : List Char) : FS × Bool :=
  if fs.stuck.contains p then (fs, false)
  else ({ fs with files := fs.files.filter (fun q => q.1 != p) }, true)

/-- Effect of a black-box command that either leaves its output file
`dest` with some size or leaves nothing. -/
def cmdEffect (fs : FS) (dest : List Char) (written : Option Nat) : FS :=
  match written with
  | some n => fs.put dest n
  | none => fs

/-! ### Artifact pipeline (backup.py lines 119-218, 397-445) -/

/-- `dump_database(db_name, postgres_opts, dest_file)` (lines 119-165).
`cmdOk` is the exit status of the `pg_dump | gzip` shell command,
`written` its effect on `dest`.  After a successful command the
destination must exist and be non-empty (lines 133-144); any failure
removes a leftover file and returns `None`. -/
def dump_database (fs : FS) (dest : List Char) (cmdOk : Bool)
    (written : Option Nat) : Option (List Char) × FS :=
  let fs1 := cmdEffect fs dest written
  if cmdOk then
    if fs1.pathExists dest && decide (0 < fs1.size dest) then (some dest, fs1)
    else (none, if fs1.pathExists dest then (fs1.tryRemove dest).1 else fs1)
  else
    (none, if fs1.pathExists dest then (fs1.tryRemove dest).1 else fs1)

/-- `encrypt_dump(src_file, password)` (lines 168-200).  `cmdOk` is the
outcome of the `openssl enc` command, `written` its effect on the `.enc`
output.  On command success the plaintext is removed — but an `OSError`
there is swallowed and the `.enc` path is returned anyway (lines 182-190).
On command failure a partial `.enc` file is removed and `None` returned
(lines 191-200). -/
def encrypt_dump (fs : FS) (src : List Char) (cmdOk : Bool)
    (written : Option Nat) : Option (List Char) × FS :=
  if src.isEmpty || !fs.pathExists src then (none, fs)
  else
    let enc := src ++ ".enc".data
    let fs1 := cmdEffect fs enc written
    if cmdOk then
      (some enc, (fs1.tryRemove src).1)
    else
      (none, if fs1.pathExists enc then (fs1.tryRemove enc).1 else fs1)

/-- `upload_to_s3(local_file, bucket, s3_key)` (lines 203-218): fails when
the local file is missing, otherwise reports the `aws s3 cp` outcome. -/
def upload_to_s3 (fs : FS) (localFile : List Char) (uploadOk : Bool) : Bool :=
  if localFile.isEmpty || !fs.pathExists localFile then false
  else uploadOk

/-- Terminal state of one database's walk through the loop body of
lines 397-445. -/
inductive DbStep where
  | dumpFailed        -- lines 405-408: failed_dumps += 1, continue
  | encLeftNothing    -- lines 422-425: failed_dumps += 1, continue
  | uploadFailed      -- lines 432-434: logged only
  | uploadedOk        -- line 431: successful_uploads += 1
deriving DecidableEq

/-- Oracle for one database's external commands. -/
structure DbOracle where
  dumpCmdOk : Bool
  dumpWritten : Option Nat
  encCmdOk : Bool
  encWritten : Option Nat
  uploadOk : Bool
deriving DecidableEq

/-- Upload step plus the unconditional local cleanup of lines 427-443. -/
def uploadAndClean (fs : FS) (fileToUpload : List Char) (uploadOk : Bool) :
    DbStep × FS :=
  let uploaded := upload_to_s3 fs fileToUpload uploadOk
  let fs1 := (fs.tryRemove fileToUpload).1
  (if uploaded then .uploadedOk else .uploadFailed, fs1)

/-- `base_filename = f"{db}_{timestamp}.sql.gz"` (line 398); the same
shape the retention regex later parses. -/
def backupKey (db ts : List Char) : List Char := db ++ '_' :: (ts ++ ".sql.gz".data)

/-- The loop body for one database (lines 397-445).  `pw` is
`ENCRYPTION_PASSWORD` (`None` or the empty string disables encryption,
line 413). -/
def processDb (pw : Option (List Char)) (fs : FS) (db ts : List Char)
    (o : DbOracle) : DbStep × FS :=
  let base := backupKey db ts
  match dump_database fs base o.dumpCmdOk o.dumpWritten with
  | (none, fs1) => (.dumpFailed, fs1)
  | (some dumped, fs1) =>
    let doEnc := match pw with
      | none => false
      | some p => !p.isEmpty
    if doEnc then
      match encrypt_dump fs1 dumped o.encCmdOk o.encWritten with
      | (some enc, fs2) => uploadAndClean fs2 enc o.uploadOk
      | (none, fs2) =>
        if fs2.pathExists dumped then uploadAndClean fs2 dumped o.uploadOk
        else (.encLeftNothing, fs2)
    else uploadAndClean fs1 dumped o.uploadOk

/-- `for db in databases:` (lines 397-445): every database is processed,
in order, regardless of earlier failures; `orc i` is database `i`'s
oracle. -/
def runPipeline (pw : Option (List Char)) (ts : List Char)
    (orc : Nat → DbOracle) : FS → List (List Char) → Nat →
    List DbStep × FS
  | fs, [], _ => ([], fs)
  | fs, db :: rest, i =>
    let r1 := processDb pw fs db ts (orc i)
    let r2 := runPipeline pw ts orc r1.2 rest (i + 1)
    (r1.1 :: r2.1, r2.2)

def isFailedDump : DbStep → Bool
  | .dumpFailed => true
  | .encLeftNothing => true
  | _ => false

def isUploaded : DbStep → Bool
  | .uploadedOk => true
  | _ => false

/-- `failed_dumps` after the loop (lines 395, 407, 424). -/
def failedDumps (steps : List DbStep) : Nat := steps.countP isFailedDump

/-- `successful_uploads` after the loop (lines 394, 431). -/
def successfulUploads (steps : List DbStep) : Nat := steps.countP isUploaded

/-! ### Run coordinator (backup.py lines 321-460) -/

/-- `list_databases(postgres_opts)` (lines 100-116): a truthy
`POSTGRES_DATABASE` short-circuits; otherwise the catalog query's stripped
stdout (`none` on command failure) is whitespace-split —
`output.split() if output else []`. -/
def list_databases (specificDb : Option (List Char))
    (queryOut : Option (List Char)) : List (List Char) :=
  let fromQuery := match queryOut with
    | none => []
    | some out => if out.isEmpty then [] else splitWs out
  match specificDb with
  | some d => if d.isEmpty then fromQuery else [d]
  | none => fromQuery

/-- What happened to the retention step (lines 449-458). -/
inductive RetentionAction where
  | notReached                                          -- script aborted earlier
  | notConfigured                                       -- DELETE_OLDER_THAN unset/empty (line 458)
  | skippedEmpty                                        -- no active databases (line 453)
  | ran (targets : List (List Char)) (outcome : CleanupOutcome)  -- line 456
deriving DecidableEq

def ranRetention : RetentionAction → Bool
  | .ran _ _ => true
  | _ => false

structure MainResult where
  steps : List DbStep
  retention : RetentionAction
  exitCode : Nat
deriving DecidableEq

/-- `main()` (lines 321-460).  `envMissing` / `versionOk` summarize the
two fatal setup checks (lines 335, 363-365), the only places the script
sets a non-zero exit status via `fail` / `sys.exit(1)`; everything after
them runs to the final line and the process exits 0.  `dot` is
`DELETE_OLDER_THAN` (empty string falsy, line 451). -/
def runMain (envMissing : Bool) (versionOk : Bool)
    (specificDb queryOut : Option (List Char)) (ts : List Char)
    (pw : Option (List Char)) (orc : Nat → DbOracle) (fs0 : FS)
    (dot : Option (List Char)) (s3listing : Option (List Char))
    (now : PyDateTime) (delOk : List Char → Bool) : MainResult :=
  if envMissing then ⟨[], .notReached, 1⟩
  else if !versionOk then ⟨[], .notReached, 1⟩
  else
    let databases := list_databases specificDb queryOut
    let piped := runPipeline pw ts orc fs0 databases 0
    let retention : RetentionAction :=
      match dot with
      | none => .notConfigured
      | some s =>
        if s.isEmpty then .notConfigured
        else if databases.isEmpty then .skippedEmpty
        else .ran databases (cleanup_old_backups s3listing s now databases delOk)
    ⟨piped.1, retention, 0⟩

/-! ### Helper lemmas -/

/-- A template match fixes the length. -/
theorem matchTemplate_length :
    ∀ (t l : List Char), matchTemplate t l = true → l.length = t.length := by
  intro t
  induction t with
  | nil => intro l h; cases l with
    | nil => rfl
    | cons c cs => simp [matchTemplate] at h
  | cons tc ts ih =>
    intro l h
    cases l with
    | nil => simp [matchTemplate] at h
    | cons c cs =>
      simp only [matchTemplate, Bool.and_eq_true] at h
      simp [ih cs h.2]

/-- A character that is not a digit and does not occur in the template
cannot occur in a template-matched string. -/
theorem matchTemplate_not_mem :
    ∀ (t l : List Char) (c : Char), matchTemplate t l = true →
    c.isDigit = false → c ∉ t → c ∉ l := by
  intro t
  induction t with
  | nil => intro l c h _ _
           cases l with
           | nil => simp
           | cons x xs => simp [matchTemplate] at h
  | cons tc ts ih =>
    intro l c h hdig htc
    cases l with
    | nil => simp
    | cons x xs =>
      simp only [matchTemplate, Bool.and_eq_true] at h
      intro hmem
      rcases List.mem_cons.mp hmem with hx | hx
      · subst hx
        by_cases hd : tc = 'd'
        · rw [if_pos hd] at h; rw [h.1] at hdig; exact absurd hdig (by simp)
        · rw [if_neg hd] at h
          have : c = tc := by simpa using h.1
          exact htc (this ▸ List.mem_cons_self tc ts)
      · exact (ih xs c h.2 hdig (fun hc => htc (List.mem_cons_of_mem tc hc))) hx

/-- `bestSplit` returns the unique maximal valid split position. -/
theorem bestSplit_eq_of_max (r : List Char) :
    ∀ (n j : Nat), splitOk r j = true → j ≤ n →
    (∀ k, j < k → k ≤ n → splitOk r k = false) →
    bestSplit r n = some j := by
  intro n
  induction n with
  | zero =>
    intro j hj hle _
    have : j = 0 := Nat.le_zero.mp hle
    subst this
    simp [bestSplit, hj]
  | succ n ih =>
    intro j hj hle hmax
    by_cases h : splitOk r (n + 1) = true
    · have hje : j = n + 1 := by
        by_contra hne
        have hlt : j < n + 1 := Nat.lt_of_le_of_ne hle hne
        have := hmax (n + 1) hlt (Nat.le_refl _)
        rw [h] at this
        exact Bool.noConfusion this
      subst hje
      simp [bestSplit, h]
    · have hjn : j ≤ n := by
        rcases Nat.lt_or_ge j (n + 1) with h1 | h1
        · omega
        · have : j = n + 1 := by omega
          subst this
          exact absurd hj h
      have hstep : bestSplit r (n + 1) = bestSplit r n := by
        simp [bestSplit, h]
      rw [hstep]
      exact ih j hj hjn (fun k hk1 hk2 => hmax k hk1 (Nat.le_succ_of_le hk2))

/-- The accumulated delete trace of a sweep. -/
theorem runSweepGo_deletes (active : List (List Char)) (cutoff : PyDateTime)
    (delOk : List Char → Bool) :
    ∀ (lines : List (List Char)) (acc : SweepCounts),
    (runSweepGo active cutoff delOk lines acc).deletes_issued
      = acc.deletes_issued ++ deleteTrace active cutoff lines := by
  intro lines
  induction lines with
  | nil => intro acc; simp [runSweepGo, deleteTrace]
  | cons l ls ih =>
    intro acc
    show (runSweepGo active cutoff delOk ls (stepLine active cutoff delOk acc l)).deletes_issued = _
    rw [ih]
    unfold stepLine deleteTrace deleteKey
    cases h : lineDecision active cutoff l with
    | delete k =>
      by_cases hdo : delOk k = true
      · simp [h, hdo, List.filterMap_cons, deleteKey, deleteTrace]
      · simp [h, hdo, List.filterMap_cons, deleteKey, deleteTrace]
    | malformed => simp [h, List.filterMap_cons, deleteKey, deleteTrace]
    | badDate => simp [h, List.filterMap_cons, deleteKey, deleteTrace]
    | skipPattern => simp [h, List.filterMap_cons, deleteKey, deleteTrace]
    | skipInactive => simp [h, List.filterMap_cons, deleteKey, deleteTrace]
    | keep => simp [h, List.filterMap_cons, deleteKey, deleteTrace]

/-- The accumulated pattern-skip counter of a sweep. -/
theorem runSweepGo_skipped_pat (active : List (List Char)) (cutoff : PyDateTime)
    (delOk : List Char → Bool) :
    ∀ (lines : List (List Char)) (acc : SweepCounts),
    (runSweepGo active cutoff delOk lines acc).skipped_pat
      = acc.skipped_pat
        + lines.countP (fun l => decide (lineDecision active cutoff l = Decision.skipPattern)) := by
  intro lines
  induction lines with
  | nil => intro acc; simp [runSweepGo]
  | cons l ls ih =>
    intro acc
    show (runSweepGo active cutoff delOk ls (stepLine active cutoff delOk acc l)).skipped_pat = _
    rw [ih]
    unfold stepLine
    cases h : lineDecision active cutoff l with
    | delete k =>
      by_cases hdo : delOk k = true
      · simp [h, hdo, List.countP_cons]
      · simp [h, hdo, List.countP_cons]
    | malformed => simp [h, List.countP_cons]
    | badDate => simp [h, List.countP_cons]
    | skipPattern => simp [h, List.countP_cons]; omega
    | skipInactive => simp [h, List.countP_cons]
    | keep => simp [h, List.countP_cons]

/-- The accumulated inactive-skip counter of a sweep. -/
theorem runSweepGo_skipped_db (active : List (List Char)) (cutoff : PyDateTime)
    (delOk : List Char → Bool) :
    ∀ (lines : List (List Char)) (acc : SweepCounts),
    (runSweepGo active cutoff delOk lines acc).skipped_db
      = acc.skipped_db
        + lines.countP (fun l => decide (lineDecision active cutoff l = Decision.skipInactive)) := by
  intro lines
  induction lines with
  | nil => intro acc; simp [runSweepGo]
  | cons l ls ih =>
    intro acc
    show (runSweepGo active cutoff delOk ls (stepLine active cutoff delOk acc l)).skipped_db = _
    rw [ih]
    unfold stepLine
    cases h : lineDecision active cutoff l with
    | delete k =>
      by_cases hdo : delOk k = true
      · simp [h, hdo, List.countP_cons]
      · simp [h, hdo, List.countP_cons]
    | malformed => simp [h, List.countP_cons]
    | badDate => simp [h, List.countP_cons]
    | skipPattern => simp [h, List.countP_cons]
    | skipInactive => simp [h, List.countP_cons]; omega
    | keep => simp [h, List.countP_cons]

theorem runSweep_deletes (active : List (List Char)) (cutoff : PyDateTime)
    (lines : List (List Char)) (delOk : List Char → Bool) :
    (runSweep active cutoff lines delOk).deletes_issued
      = deleteTrace active cutoff lines := by
  unfold runSweep
  rw [runSweepGo_deletes]
  rfl

theorem runSweep_skipped_pat (active : List (List Char)) (cutoff : PyDateTime)
    (lines : List (List Char)) (delOk : List Char → Bool) :
    (runSweep active cutoff lines delOk).skipped_pat
      = lines.countP (fun l => decide (lineDecision active cutoff l = Decision.skipPattern)) := by
  unfold runSweep
  rw [runSweepGo_skipped_pat]
  simp [SweepCounts.zero]

theorem runSweep_skipped_db (active : List (List Char)) (cutoff : PyDateTime)
    (lines : List (List Char)) (delOk : List Char → Bool) :
    (runSweep active cutoff lines delOk).skipped_db
      = lines.countP (fun l => decide (lineDecision active cutoff l = Decision.skipInactive)) := by
  unfold runSweep
  rw [runSweepGo_skipped_db]
  simp [SweepCounts.zero]

/-- Removing stale entries really removes them. -/
theorem any_filter_self (files : List (List Char × Nat)) (p : List Char) :
    ((files.filter (fun q => q.1 != p)).any (fun q => q.1 == p)) = false := by
  induction files with
  | nil => rfl
  | cons q qs ih =>
    by_cases h : q.1 = p
    · simp [List.filter_cons, h, ih]
    · simp [List.filter_cons, h, ih]

theorem FS.tryRemove_not_pathExists (fs : FS) (p : List Char)
    (h : fs.stuck.contains p = false) :
    ((fs.tryRemove p).1.pathExists p) = false := by
  unfold FS.tryRemove
  rw [h]
  simp only [Bool.false_eq_true, if_false]
  exact any_filter_self fs.files p

theorem cmdEffect_stuck (fs : FS) (dest : List Char) (written : Option Nat) :
    (cmdEffect fs dest written).stuck = fs.stuck := by
  cases written <;> rfl

/-- Every database in the list yields exactly one pipeline step. -/
theorem runPipeline_length (pw : Option (List Char)) (ts : List Char)
    (orc : Nat → DbOracle) :
    ∀ (dbs : List (List Char)) (fs : FS) (i : Nat),
    ((runPipeline pw ts orc fs dbs i).1).length = dbs.length := by
  intro dbs
  induction dbs with
  | nil => intro fs i; rfl
  | cons db rest ih =>
    intro fs i
    show ((runPipeline pw ts orc fs (db :: rest) i).1).length = rest.length + 1
    unfold runPipeline
    simp [ih]

theorem dtLt_irrefl (a : PyDateTime) : dtLt a a = false := by
  simp [dtLt]

/-! ### Claim theorems -/

/-- Claim C8: for every retention-window string not of the exact form
`<integer> day(s)` (two whitespace-separated tokens, the first all digits,
the second `day`/`days` case-insensitively), the retention sweep aborts
without deleting any object: no delete command is issued and the per-line
loop never runs. -/
theorem c8_bad_retention_aborts
    (listing : Option (List Char)) (older : List Char) (now : PyDateTime)
    (active : List (List Char)) (delOk : List Char → Bool)
    (h : parseRetention older = none) :
    deletesOf (cleanup_old_backups listing older now active delOk) = []
    ∧ sweptHappened (cleanup_old_backups listing older now active delOk) = false := by
  cases listing with
  | none => exact ⟨rfl, rfl⟩
  | some out =>
    by_cases he : out.isEmpty = true
    · simp [cleanup_old_backups, he, deletesOf, sweptHappened]
    · by_cases hl : (splitlinesNL out).isEmpty = true
      · simp [cleanup_old_backups, he, hl, deletesOf, sweptHappened]
      · simp [cleanup_old_backups, he, hl, h, deletesOf, sweptHappened]

theorem c8_witness :
    parseRetention "monthly".data = none
    ∧ (deletesOf (cleanup_old_backups (some "2024-01-01 00:00:00 5 a_2020-01-01T000000Z.sql.gz".data)
          "monthly".data ⟨2024, 6, 1, 0, 0, 0⟩ ["a".data] (fun _ => true)) = []
       ∧ sweptHappened (cleanup_old_backups (some "2024-01-01 00:00:00 5 a_2020-01-01T000000Z.sql.gz".data)
          "monthly".data ⟨2024, 6, 1, 0, 0, 0⟩ ["a".data] (fun _ => true)) = false) :=
  ⟨by decide,
   c8_bad_retention_aborts (some "2024-01-01 00:00:00 5 a_2020-01-01T000000Z.sql.gz".data)
     "monthly".data ⟨2024, 6, 1, 0, 0, 0⟩ ["a".data] (fun _ => true) (by decide)⟩

/-- Claim C9: when retention is configured (`DELETE_OLDER_THAN` a
non-empty string) and the target list determined in this run is empty,
the coordinator skips the sweep entirely; when it is non-empty, the sweep
receives exactly the list collected in this same run. -/
theorem c9_retention_dispatch
    (specificDb queryOut : Option (List Char)) (ts : List Char)
    (pw : Option (List Char)) (orc : Nat → DbOracle) (fs0 : FS)
    (s : List Char) (s3listing : Option (List Char)) (now : PyDateTime)
    (delOk : List Char → Bool)
    (hs : s.isEmpty = false) :
    ((list_databases specificDb queryOut).isEmpty = true →
      (runMain false true specificDb queryOut ts pw orc fs0 (some s) s3listing now delOk).retention
        = RetentionAction.skippedEmpty)
    ∧ ((list_databases specificDb queryOut).isEmpty = false →
      (runMain false true specificDb queryOut ts pw orc fs0 (some s) s3listing now delOk).retention
        = RetentionAction.ran (list_databases specificDb queryOut)
            (cleanup_old_backups s3listing s now (list_databases specificDb queryOut) delOk)) := by
  constructor
  · intro hd
    simp [runMain, hs, hd]
  · intro hd
    simp [runMain, hs, hd]

theorem c9_witness :
    ("30 days".data.isEmpty = false)
    ∧ (((list_databases none (some "orders".data)).isEmpty = true →
        (runMain false true none (some "orders".data) "2024-06-01T000000Z".data none
          (fun _ => ⟨true, some 5, true, some 5, true⟩) ⟨[], []⟩ (some "30 days".data)
          none ⟨2024, 6, 2, 0, 0, 0⟩ (fun _ => true)).retention = RetentionAction.skippedEmpty)
      ∧ ((list_databases none (some "orders".data)).isEmpty = false →
        (runMain false true none (some "orders".data) "2024-06-01T000000Z".data none
          (fun _ => ⟨true, some 5, true, some 5, true⟩) ⟨[], []⟩ (some "30 days".data)
          none ⟨2024, 6, 2, 0, 0, 0⟩ (fun _ => true)).retention
            = RetentionAction.ran (list_databases none (some "orders".data))
                (cleanup_old_backups none "30 days".data ⟨2024, 6, 2, 0, 0, 0⟩
                  (list_databases none (some "orders".data)) (fun _ => true)))) :=
  ⟨by decide,
   c9_retention_dispatch none (some "orders".data) "2024-06-01T000000Z".data none
     (fun _ => ⟨true, some 5, true, some 5, true⟩) ⟨[], []⟩ "30 days".data none
     ⟨2024, 6, 2, 0, 0, 0⟩ (fun _ => true) (by decide)⟩

/-- Claim C10: a failed catalog-listing command yields the empty target
list — the same value as "no user databases exist" — so the run skips the
pipeline, never runs retention, and exits 0. -/
theorem c10_listing_failure_empty
    (ts : List Char) (pw : Option (List Char)) (orc : Nat → DbOracle) (fs0 : FS)
    (dot : Option (List Char)) (s3listing : Option (List Char))
    (now : PyDateTime) (delOk : List Char → Bool) :
    list_databases none none = []
    ∧ list_databases none (some []) = []
    ∧ (runMain false true none none ts pw orc fs0 dot s3listing now delOk).steps = []
    ∧ (runMain false true none none ts pw orc fs0 dot s3listing now delOk).exitCode = 0
    ∧ ranRetention (runMain false true none none ts pw orc fs0 dot s3listing now delOk).retention
        = false := by
  refine ⟨rfl, rfl, rfl, rfl, ?_⟩
  cases dot with
  | none => rfl
  | some s =>
    by_cases hs : s.isEmpty = true
    · simp [runMain, hs, ranRetention, list_databases]
    · simp [runMain, hs, ranRetention, list_databases, runPipeline]

/-- Claim C3 (amended): when at least one database's artifact pipeline
fails before reaching UPLOADED, the run still processes every database —
one pipeline step per listed database, in order — but then exits with
status 0: after the configuration and version checks, `main` has no
failure path that sets a non-zero exit status. -/
theorem c3_failures_still_exit_zero
    (specificDb queryOut : Option (List Char)) (ts : List Char)
    (pw : Option (List Char)) (orc : Nat → DbOracle) (fs0 : FS)
    (dot s3listing : Option (List Char)) (now : PyDateTime) (delOk : List Char → Bool)
    (_hfail : ∃ st ∈ (runMain false true specificDb queryOut ts pw orc fs0 dot s3listing now delOk).steps,
        isUploaded st = false) :
    ((runMain false true specificDb queryOut ts pw orc fs0 dot s3listing now delOk).steps).length
      = (list_databases specificDb queryOut).length
    ∧ (runMain false true specificDb queryOut ts pw orc fs0 dot s3listing now delOk).exitCode = 0 := by
  constructor
  · have hsteps : (runMain false true specificDb queryOut ts pw orc fs0 dot s3listing now delOk).steps
        = (runPipeline pw ts orc fs0 (list_databases specificDb queryOut) 0).1 := rfl
    rw [hsteps]
    exact runPipeline_length pw ts orc (list_databases specificDb queryOut) fs0 0
  · rfl

/-- Claim C3, counterexample to the claim as stated: a run whose first
database's dump fails (a pipeline that never reached UPLOADED) processes
the remaining database and exits with status 0, not non-zero. -/
theorem c3_counterexample :
    runMain false true none (some "alpha beta".data) "2024-06-01T000000Z".data none
      (fun i => if i = 0 then ⟨false, none, true, none, true⟩ else ⟨true, some 5, true, some 5, true⟩)
      ⟨[], []⟩ none none ⟨2024, 6, 2, 0, 0, 0⟩ (fun _ => true)
    = ⟨[DbStep.dumpFailed, DbStep.uploadedOk], RetentionAction.notConfigured, 0⟩ := by
  decide

theorem c3_witness :
    (∃ st ∈ (runMain false true none (some "alpha beta".data) "2024-06-01T000000Z".data none
        (fun i => if i = 0 then ⟨false, none, false, none, false⟩ else ⟨true, some 5, true, some 5, true⟩)
        ⟨[], []⟩ none none ⟨2024, 6, 2, 0, 0, 0⟩ (fun _ => false)).steps, isUploaded st = false)
    ∧ (((runMain false true none (some "alpha beta".data) "2024-06-01T000000Z".data none
        (fun i => if i = 0 then ⟨false, none, false, none, false⟩ else ⟨true, some 5, true, some 5, true⟩)
        ⟨[], []⟩ none none ⟨2024, 6, 2, 0, 0, 0⟩ (fun _ => false)).steps).length
          = (list_databases none (some "alpha beta".data)).length
      ∧ (runMain false true none (some "alpha beta".data) "2024-06-01T000000Z".data none
        (fun i => if i = 0 then ⟨false, none, false, none, false⟩ else ⟨true, some 5, true, some 5, true⟩)
        ⟨[], []⟩ none none ⟨2024, 6, 2, 0, 0, 0⟩ (fun _ => false)).exitCode = 0) :=
  ⟨by decide,
   c3_failures_still_exit_zero none (some "alpha beta".data) "2024-06-01T000000Z".data none
     (fun i => if i = 0 then ⟨false, none, false, none, false⟩ else ⟨true, some 5, true, some 5, true⟩)
     ⟨[], []⟩ none none ⟨2024, 6, 2, 0, 0, 0⟩ (fun _ => false) (by decide)⟩

/-- Claim C4 (amended): when the encryption command succeeds, removal of
the plaintext is attempted, and whenever that removal does not raise
(`src` not stuck), the plaintext no longer exists after the step; but the
`.enc` path is returned as success regardless of the removal outcome. -/
theorem c4_plaintext_removed_when_removal_succeeds
    (fs : FS) (src : List Char) (written : Option Nat)
    (hne : src.isEmpty = false)
    (hex : fs.pathExists src = true)
    (hstuck : fs.stuck.contains src = false) :
    (encrypt_dump fs src true written).1 = some (src ++ ".enc".data)
    ∧ ((encrypt_dump fs src true written).2).pathExists src = false := by
  have h1 : encrypt_dump fs src true written
      = (some (src ++ ".enc".data),
         ((cmdEffect fs (src ++ ".enc".data) written).tryRemove src).1) := by
    simp [encrypt_dump, hne, hex]
  refine ⟨by rw [h1], ?_⟩
  rw [h1]
  apply FS.tryRemove_not_pathExists
  rw [cmdEffect_stuck]
  exact hstuck

/-- Claim C4, counterexample to the claim as stated: the openssl command
succeeds, `os.remove` of the plaintext raises `OSError`, and the function
still returns the `.enc` path as success while the plaintext remains on
disk — plaintext and ciphertext coexist after a "successful" encryption. -/
theorem c4_counterexample :
    (encrypt_dump ⟨[("db.sql.gz".data, 5)], ["db.sql.gz".data]⟩ "db.sql.gz".data true (some 7)).1
      = some "db.sql.gz.enc".data
    ∧ ((encrypt_dump ⟨[("db.sql.gz".data, 5)], ["db.sql.gz".data]⟩ "db.sql.gz".data true (some 7)).2).pathExists
        "db.sql.gz".data = true
    ∧ ((encrypt_dump ⟨[("db.sql.gz".data, 5)], ["db.sql.gz".data]⟩ "db.sql.gz".data true (some 7)).2).pathExists
        "db.sql.gz.enc".data = true := by
  decide

theorem c4_witness :
    ("db.sql.gz".data.isEmpty = false
      ∧ (FS.pathExists ⟨[("db.sql.gz".data, 5)], []⟩ "db.sql.gz".data) = true
      ∧ (FS.stuck ⟨[("db.sql.gz".data, 5)], []⟩).contains "db.sql.gz".data = false)
    ∧ ((encrypt_dump ⟨[("db.sql.gz".data, 5)], []⟩ "db.sql.gz".data true (some 7)).1
        = some ("db.sql.gz".data ++ ".enc".data)
      ∧ ((encrypt_dump ⟨[("db.sql.gz".data, 5)], []⟩ "db.sql.gz".data true (some 7)).2).pathExists
          "db.sql.gz".data = false) :=
  ⟨by decide,
   c4_plaintext_removed_when_removal_succeeds ⟨[("db.sql.gz".data, 5)], []⟩ "db.sql.gz".data
     (some 7) (by decide) (by decide) (by decide)⟩

/-- Claim C7: if the dump command exits 0 but the destination file is
missing or has zero size, the dump is treated as failed: `None` is
returned, a leftover file is removed, the loop records `dumpFailed` for
this database without touching the encryption or upload oracles, the
failure counter is incremented, and the pipeline continues with the rest
of the list. -/
theorem c7_empty_dump_fails
    (fs : FS) (db ts : List Char) (pw : Option (List Char)) (o : DbOracle)
    (orc : Nat → DbOracle) (rest : List (List Char)) (i : Nat)
    (hcmd : o.dumpCmdOk = true)
    (hsz : (cmdEffect fs (backupKey db ts) o.dumpWritten).size (backupKey db ts) = 0)
    (hstuck : fs.stuck.contains (backupKey db ts) = false)
    (horc : orc i = o) :
    (dump_database fs (backupKey db ts) o.dumpCmdOk o.dumpWritten).1 = none
    ∧ ((dump_database fs (backupKey db ts) o.dumpCmdOk o.dumpWritten).2).pathExists (backupKey db ts)
        = false
    ∧ processDb pw fs db ts o
        = (DbStep.dumpFailed, (dump_database fs (backupKey db ts) o.dumpCmdOk o.dumpWritten).2)
    ∧ (runPipeline pw ts orc fs (db :: rest) i).1
        = DbStep.dumpFailed
          :: (runPipeline pw ts orc
                (dump_database fs (backupKey db ts) o.dumpCmdOk o.dumpWritten).2 rest (i + 1)).1
    ∧ failedDumps ((runPipeline pw ts orc fs (db :: rest) i).1)
        = failedDumps ((runPipeline pw ts orc
            (dump_database fs (backupKey db ts) o.dumpCmdOk o.dumpWritten).2 rest (i + 1)).1) + 1 := by
  have hdd : dump_database fs (backupKey db ts) o.dumpCmdOk o.dumpWritten
      = (none,
         if (cmdEffect fs (backupKey db ts) o.dumpWritten).pathExists (backupKey db ts) = true then
           ((cmdEffect fs (backupKey db ts) o.dumpWritten).tryRemove (backupKey db ts)).1
         else cmdEffect fs (backupKey db ts) o.dumpWritten) := by
    rw [hcmd]
    simp [dump_database, hsz]
  have hpe : ((dump_database fs (backupKey db ts) o.dumpCmdOk o.dumpWritten).2).pathExists (backupKey db ts)
      = false := by
    rw [hdd]
    by_cases hp : (cmdEffect fs (backupKey db ts) o.dumpWritten).pathExists (backupKey db ts) = true
    · simp only [hp, if_true]
      apply FS.tryRemove_not_pathExists
      rw [cmdEffect_stuck]
      exact hstuck
    · simp only [hp, if_false]
      exact Bool.eq_false_iff.mpr hp
  have hproc : processDb pw fs db ts o
      = (DbStep.dumpFailed, (dump_database fs (backupKey db ts) o.dumpCmdOk o.dumpWritten).2) := by
    simp only [processDb]
    rw [hdd]
  have hpipe : runPipeline pw ts orc fs (db :: rest) i
      = (DbStep.dumpFailed
          :: (runPipeline pw ts orc
                (dump_database fs (backupKey db ts) o.dumpCmdOk o.dumpWritten).2 rest (i + 1)).1,
         (runPipeline pw ts orc
            (dump_database fs (backupKey db ts) o.dumpCmdOk o.dumpWritten).2 rest (i + 1)).2) := by
    conv_lhs => unfold runPipeline
    rw [horc, hproc]
  refine ⟨by rw [hdd], hpe, hproc, by rw [hpipe], ?_⟩
  rw [hpipe]
  simp [failedDumps, List.countP_cons, isFailedDump]

theorem c7_witness :
    (DbOracle.dumpCmdOk ⟨true, some 0, true, some 5, true⟩ = true
      ∧ (cmdEffect ⟨[], []⟩ (backupKey "orders".data "2024-06-01T000000Z".data)
          (DbOracle.dumpWritten ⟨true, some 0, true, some 5, true⟩)).size
          (backupKey "orders".data "2024-06-01T000000Z".data) = 0
      ∧ (FS.stuck ⟨[], []⟩).contains (backupKey "orders".data "2024-06-01T000000Z".data) = false
      ∧ (fun _ => (⟨true, some 0, true, some 5, true⟩ : DbOracle)) 0 = ⟨true, some 0, true, some 5, true⟩)
    ∧ ((dump_database ⟨[], []⟩ (backupKey "orders".data "2024-06-01T000000Z".data) true (some 0)).1 = none
      ∧ ((dump_database ⟨[], []⟩ (backupKey "orders".data "2024-06-01T000000Z".data) true (some 0)).2).pathExists
          (backupKey "orders".data "2024-06-01T000000Z".data) = false
      ∧ processDb none ⟨[], []⟩ "orders".data "2024-06-01T000000Z".data ⟨true, some 0, true, some 5, true⟩
          = (DbStep.dumpFailed,
             (dump_database ⟨[], []⟩ (backupKey "orders".data "2024-06-01T000000Z".data) true (some 0)).2)
      ∧ (runPipeline none "2024-06-01T000000Z".data (fun _ => ⟨true, some 0, true, some 5, true⟩)
            ⟨[], []⟩ ["orders".data] 0).1
          = DbStep.dumpFailed
            :: (runPipeline none "2024-06-01T000000Z".data (fun _ => ⟨true, some 0, true, some 5, true⟩)
                  (dump_database ⟨[], []⟩ (backupKey "orders".data "2024-06-01T000000Z".data) true (some 0)).2
                  [] 1).1
      ∧ failedDumps ((runPipeline none "2024-06-01T000000Z".data (fun _ => ⟨true, some 0, true, some 5, true⟩)
            ⟨[], []⟩ ["orders".data] 0).1)
          = failedDumps ((runPipeline none "2024-06-01T000000Z".data (fun _ => ⟨true, some 0, true, some 5, true⟩)
              (dump_database ⟨[], []⟩ (backupKey "orders".data "2024-06-01T000000Z".data) true (some 0)).2
              [] 1).1) + 1) :=
  ⟨by refine ⟨rfl, by decide, by decide, rfl⟩,
   c7_empty_dump_fails ⟨[], []⟩ "orders".data "2024-06-01T000000Z".data none
     ⟨true, some 0, true, some 5, true⟩ (fun _ => ⟨true, some 0, true, some 5, true⟩) [] 0
     rfl (by decide) (by decide) rfl⟩

/-- Claim C1: an object of the listing whose filename does not match the
backup naming pattern is never the target of a delete command, whatever
its age: its decision is never `delete`; when the line is well formed and
its timestamp parses, the decision is exactly `skipPattern`, so the
pattern-skip counter (characterized below) counts it; and a sweep's
delete commands are exactly the keys of `delete`-decided lines. -/
theorem c1_pattern_mismatch_never_deleted
    (active : List (List Char)) (cutoff : PyDateTime) (delOk : List Char → Bool)
    (lines : List (List Char)) (line : List Char)
    (hmem : line ∈ lines)
    (hpat : filename_pattern (fieldAt line 3) = none) :
    isDelete (lineDecision active cutoff line) = false
    ∧ (4 ≤ (splitWs line).length →
        (parseDateTime (fieldAt line 0 ++ ' ' :: fieldAt line 1)).isSome = true →
        lineDecision active cutoff line = Decision.skipPattern
        ∧ 0 < (runSweep active cutoff lines delOk).skipped_pat)
    ∧ (runSweep active cutoff lines delOk).deletes_issued = deleteTrace active cutoff lines
    ∧ (runSweep active cutoff lines delOk).skipped_pat
        = lines.countP (fun l => decide (lineDecision active cutoff l = Decision.skipPattern)) := by
  simp only [fieldAt, List.getD_eq_getElem?_getD] at hpat
  refine ⟨?_, ?_, runSweep_deletes active cutoff lines delOk,
    runSweep_skipped_pat active cutoff lines delOk⟩
  · by_cases hlen : (splitWs line).length < 4
    · simp [lineDecision, hlen, isDelete]
    · cases hdt : parseDateTime ((splitWs line)[0]?.getD [] ++ ' ' :: (splitWs line)[1]?.getD []) with
      | none => simp [lineDecision, hlen, hdt, isDelete]
      | some lm => simp [lineDecision, hlen, hdt, hpat, isDelete]
  · intro hwf hsome
    simp only [fieldAt, List.getD_eq_getElem?_getD] at hsome
    have hlen : ¬((splitWs line).length < 4) := by omega
    obtain ⟨lm, hlm⟩ := Option.isSome_iff_exists.mp hsome
    have hdec : lineDecision active cutoff line = Decision.skipPattern := by
      simp [lineDecision, hlen, hlm, hpat]
    refine ⟨hdec, ?_⟩
    rw [runSweep_skipped_pat active cutoff lines delOk]
    exact List.countP_pos_iff.mpr ⟨line, hmem, by simp [hdec]⟩

theorem c1_witness :
    ("2024-05-05 10:00:00 123 notes.txt".data ∈ ["2024-05-05 10:00:00 123 notes.txt".data]
      ∧ filename_pattern (fieldAt "2024-05-05 10:00:00 123 notes.txt".data 3) = none)
    ∧ (isDelete (lineDecision [] ⟨2024, 6, 1, 0, 0, 0⟩ "2024-05-05 10:00:00 123 notes.txt".data) = false
      ∧ (4 ≤ (splitWs "2024-05-05 10:00:00 123 notes.txt".data).length →
          (parseDateTime (fieldAt "2024-05-05 10:00:00 123 notes.txt".data 0
              ++ ' ' :: fieldAt "2024-05-05 10:00:00 123 notes.txt".data 1)).isSome = true →
          lineDecision [] ⟨2024, 6, 1, 0, 0, 0⟩ "2024-05-05 10:00:00 123 notes.txt".data
              = Decision.skipPattern
          ∧ 0 < (runSweep [] ⟨2024, 6, 1, 0, 0, 0⟩ ["2024-05-05 10:00:00 123 notes.txt".data]
              (fun _ => true)).skipped_pat)
      ∧ (runSweep [] ⟨2024, 6, 1, 0, 0, 0⟩ ["2024-05-05 10:00:00 123 notes.txt".data]
            (fun _ => true)).deletes_issued
          = deleteTrace [] ⟨2024, 6, 1, 0, 0, 0⟩ ["2024-05-05 10:00:00 123 notes.txt".data]
      ∧ (runSweep [] ⟨2024, 6, 1, 0, 0, 0⟩ ["2024-05-05 10:00:00 123 notes.txt".data]
            (fun _ => true)).skipped_pat
          = ["2024-05-05 10:00:00 123 notes.txt".data].countP
              (fun l => decide (lineDecision [] ⟨2024, 6, 1, 0, 0, 0⟩ l = Decision.skipPattern))) :=
  ⟨⟨by decide, by decide⟩,
   c1_pattern_mismatch_never_deleted [] ⟨2024, 6, 1, 0, 0, 0⟩ (fun _ => true)
     ["2024-05-05 10:00:00 123 notes.txt".data] "2024-05-05 10:00:00 123 notes.txt".data
     (by decide) (by decide)⟩

/-- Claim C2: an object of the listing whose extracted database name is
not in the active target set is never the target of a delete command,
whatever its age: its decision is never `delete`; when the line is well
formed and its timestamp parses, the decision is exactly `skipInactive`,
so the inactive-skip counter (characterized below) counts it. -/
theorem c2_inactive_db_never_deleted
    (active : List (List Char)) (cutoff : PyDateTime) (delOk : List Char → Bool)
    (lines : List (List Char)) (line db ts2 : List Char)
    (hmem : line ∈ lines)
    (hpat : filename_pattern (fieldAt line 3) = some (db, ts2))
    (hdb : active.contains db = false) :
    isDelete (lineDecision active cutoff line) = false
    ∧ (4 ≤ (splitWs line).length →
        (parseDateTime (fieldAt line 0 ++ ' ' :: fieldAt line 1)).isSome = true →
        lineDecision active cutoff line = Decision.skipInactive
        ∧ 0 < (runSweep active cutoff lines delOk).skipped_db)
    ∧ (runSweep active cutoff lines delOk).deletes_issued = deleteTrace active cutoff lines
    ∧ (runSweep active cutoff lines delOk).skipped_db
        = lines.countP (fun l => decide (lineDecision active cutoff l = Decision.skipInactive)) := by
  simp only [fieldAt, List.getD_eq_getElem?_getD] at hpat
  have hdb2 : db ∉ active := by simpa using hdb
  refine ⟨?_, ?_, runSweep_deletes active cutoff lines delOk,
    runSweep_skipped_db active cutoff lines delOk⟩
  · by_cases hlen : (splitWs line).length < 4
    · simp [lineDecision, hlen, isDelete]
    · cases hdt : parseDateTime ((splitWs line)[0]?.getD [] ++ ' ' :: (splitWs line)[1]?.getD []) with
      | none => simp [lineDecision, hlen, hdt, isDelete]
      | some lm => simp [lineDecision, hlen, hdt, hpat, hdb2, isDelete]
  · intro hwf hsome
    simp only [fieldAt, List.getD_eq_getElem?_getD] at hsome
    have hlen : ¬((splitWs line).length < 4) := by omega
    obtain ⟨lm, hlm⟩ := Option.isSome_iff_exists.mp hsome
    have hdec : lineDecision active cutoff line = Decision.skipInactive := by
      simp [lineDecision, hlen, hlm, hpat, hdb2]
    refine ⟨hdec, ?_⟩
    rw [runSweep_skipped_db active cutoff lines delOk]
    exact List.countP_pos_iff.mpr ⟨line, hmem, by simp [hdec]⟩

theorem c2_witness :
    ("2020-01-05 10:00:00 123 gone_2020-01-05T100000Z.sql.gz".data
        ∈ ["2020-01-05 10:00:00 123 gone_2020-01-05T100000Z.sql.gz".data]
      ∧ filename_pattern (fieldAt "2020-01-05 10:00:00 123 gone_2020-01-05T100000Z.sql.gz".data 3)
          = some ("gone".data, "2020-01-05T100000Z".data)
      ∧ ["orders".data].contains "gone".data = false)
    ∧ (isDelete (lineDecision ["orders".data] ⟨2024, 6, 1, 0, 0, 0⟩
          "2020-01-05 10:00:00 123 gone_2020-01-05T100000Z.sql.gz".data) = false
      ∧ (4 ≤ (splitWs "2020-01-05 10:00:00 123 gone_2020-01-05T100000Z.sql.gz".data).length →
          (parseDateTime (fieldAt "2020-01-05 10:00:00 123 gone_2020-01-05T100000Z.sql.gz".data 0
              ++ ' ' :: fieldAt "2020-01-05 10:00:00 123 gone_2020-01-05T100000Z.sql.gz".data 1)).isSome
            = true →
          lineDecision ["orders".data] ⟨2024, 6, 1, 0, 0, 0⟩
              "2020-01-05 10:00:00 123 gone_2020-01-05T100000Z.sql.gz".data
            = Decision.skipInactive
          ∧ 0 < (runSweep ["orders".data] ⟨2024, 6, 1, 0, 0, 0⟩
              ["2020-01-05 10:00:00 123 gone_2020-01-05T100000Z.sql.gz".data]
              (fun _ => true)).skipped_db)
      ∧ (runSweep ["orders".data] ⟨2024, 6, 1, 0, 0, 0⟩
            ["2020-01-05 10:00:00 123 gone_2020-01-05T100000Z.sql.gz".data]
            (fun _ => true)).deletes_issued
          = deleteTrace ["orders".data] ⟨2024, 6, 1, 0, 0, 0⟩
              ["2020-01-05 10:00:00 123 gone_2020-01-05T100000Z.sql.gz".data]
      ∧ (runSweep ["orders".data] ⟨2024, 6, 1, 0, 0, 0⟩
            ["2020-01-05 10:00:00 123 gone_2020-01-05T100000Z.sql.gz".data]
            (fun _ => true)).skipped_db
          = ["2020-01-05 10:00:00 123 gone_2020-01-05T100000Z.sql.gz".data].countP
              (fun l => decide (lineDecision ["orders".data] ⟨2024, 6, 1, 0, 0, 0⟩ l
                  = Decision.skipInactive))) :=
  ⟨⟨by decide, by decide, by decide⟩,
   c2_inactive_db_never_deleted ["orders".data] ⟨2024, 6, 1, 0, 0, 0⟩ (fun _ => true)
     ["2020-01-05 10:00:00 123 gone_2020-01-05T100000Z.sql.gz".data]
     "2020-01-05 10:00:00 123 gone_2020-01-05T100000Z.sql.gz".data
     "gone".data "2020-01-05T100000Z".data (by decide) (by decide) (by decide)⟩

/-- Claim C6: for a retention-eligible object (well-formed line, parsed
timestamp, pattern-matched filename, active database), the decision is
`delete` exactly when its last-modified timestamp is strictly before the
cutoff, `keep` exactly otherwise; in particular an object whose timestamp
equals the cutoff is kept. -/
theorem c6_strict_cutoff_boundary
    (active : List (List Char)) (cutoff lm : PyDateTime) (line db ts2 : List Char)
    (hwf : 4 ≤ (splitWs line).length)
    (hdate : parseDateTime (fieldAt line 0 ++ ' ' :: fieldAt line 1) = some lm)
    (hpat : filename_pattern (fieldAt line 3) = some (db, ts2))
    (hdb : active.contains db = true) :
    (lineDecision active cutoff line = Decision.delete (fieldAt line 3)
      ↔ dtLt lm cutoff = true)
    ∧ (lineDecision active cutoff line = Decision.keep ↔ dtLt lm cutoff = false)
    ∧ (lm = cutoff → lineDecision active cutoff line = Decision.keep) := by
  simp only [fieldAt, List.getD_eq_getElem?_getD] at hdate hpat
  have hdb2 : db ∈ active := by simpa using hdb
  have hlen : ¬((splitWs line).length < 4) := by omega
  have hshape : lineDecision active cutoff line
      = if dtLt lm cutoff then Decision.delete (fieldAt line 3) else Decision.keep := by
    simp only [lineDecision, fieldAt, List.getD_eq_getElem?_getD]
    simp [hlen, hdate, hpat, hdb2]
  by_cases hc : dtLt lm cutoff = true
  · rw [hshape, if_pos hc]
    refine ⟨by simp [fieldAt, hc], by simp [hc], ?_⟩
    intro he
    rw [he, dtLt_irrefl] at hc
    exact Bool.noConfusion hc
  · have hcf : dtLt lm cutoff = false := Bool.eq_false_iff.mpr hc
    rw [hshape, if_neg hc]
    exact ⟨by simp [hcf], by simp [hcf], fun _ => rfl⟩

theorem c6_witness :
    (4 ≤ (splitWs "2024-05-05 10:00:00 123 orders_2024-05-05T100000Z.sql.gz".data).length
      ∧ parseDateTime (fieldAt "2024-05-05 10:00:00 123 orders_2024-05-05T100000Z.sql.gz".data 0
          ++ ' ' :: fieldAt "2024-05-05 10:00:00 123 orders_2024-05-05T100000Z.sql.gz".data 1)
        = some ⟨2024, 5, 5, 10, 0, 0⟩
      ∧ filename_pattern (fieldAt "2024-05-05 10:00:00 123 orders_2024-05-05T100000Z.sql.gz".data 3)
        = some ("orders".data, "2024-05-05T100000Z".data)
      ∧ ["orders".data].contains "orders".data = true)
    ∧ ((lineDecision ["orders".data] ⟨2024, 5, 5, 10, 0, 0⟩
          "2024-05-05 10:00:00 123 orders_2024-05-05T100000Z.sql.gz".data
        = Decision.delete (fieldAt "2024-05-05 10:00:00 123 orders_2024-05-05T100000Z.sql.gz".data 3)
        ↔ dtLt ⟨2024, 5, 5, 10, 0, 0⟩ ⟨2024, 5, 5, 10, 0, 0⟩ = true)
      ∧ (lineDecision ["orders".data] ⟨2024, 5, 5, 10, 0, 0⟩
          "2024-05-05 10:00:00 123 orders_2024-05-05T100000Z.sql.gz".data = Decision.keep
        ↔ dtLt ⟨2024, 5, 5, 10, 0, 0⟩ ⟨2024, 5, 5, 10, 0, 0⟩ = false)
      ∧ ((⟨2024, 5, 5, 10, 0, 0⟩ : PyDateTime) = ⟨2024, 5, 5, 10, 0, 0⟩ →
          lineDecision ["orders".data] ⟨2024, 5, 5, 10, 0, 0⟩
            "2024-05-05 10:00:00 123 orders_2024-05-05T100000Z.sql.gz".data = Decision.keep)) :=
  ⟨⟨by decide, by decide, by decide, by decide⟩,
   c6_strict_cutoff_boundary ["orders".data] ⟨2024, 5, 5, 10, 0, 0⟩ ⟨2024, 5, 5, 10, 0, 0⟩
     "2024-05-05 10:00:00 123 orders_2024-05-05T100000Z.sql.gz".data
     "orders".data "2024-05-05T100000Z".data (by decide) (by decide) (by decide) (by decide)⟩

/-- Claim C5 (amended): for every newline-free database name `N` — no
ambiguity caveat is needed, because a pipeline timestamp contains no
underscore, so the greedy anchored match always splits at the last
`_<timestamp>` — and every timestamp `ts` in the pipeline's compact
format, parsing the uploaded key `N_ts.sql.gz` with the retention regex
extracts exactly `(N, ts)`. -/
theorem c5_roundtrip_extraction (N ts : List Char)
    (hN : noNL N = true) (hts : tsCompact ts = true) :
    filename_pattern (backupKey N ts) = some (N, ts) := by
  have h7 : sqlGz.length = 7 := by decide
  have h11 : sqlGzEnc.length = 11 := by decide
  have hlen : ts.length = 18 := by
    have := matchTemplate_length "dddd-dd-ddTddddddZ".data ts hts
    simpa using this
  have hnous : '_' ∉ ts :=
    matchTemplate_not_mem "dddd-dd-ddTddddddZ".data ts '_' hts (by decide) (by decide)
  have hs : backupKey N ts = (N ++ '_' :: ts) ++ sqlGz := by
    rw [List.append_assoc]
    rfl
  have hAlen : (N ++ '_' :: ts).length = N.length + 19 := by
    rw [List.length_append, List.length_cons, hlen]
  have hsl : (backupKey N ts).length = N.length + 26 := by
    rw [hs, List.length_append, hAlen, h7]
  -- the key ends in 'z', so `$` strips nothing
  have hlast : (backupKey N ts).getLast? = some 'z' := by
    rw [hs, List.getLast?_append_of_ne_nil _ (by decide)]
    decide
  have hstrip : pyDollarStrip (backupKey N ts) = backupKey N ts := by
    unfold pyDollarStrip
    rw [hlast]
    simp
  -- the `.enc` suffix is absent
  have hd6 : (backupKey N ts).drop (N.length + 25) = ['z'] := by
    rw [hs]
    have h1 : N.length + 25 = (N ++ '_' :: ts).length + 6 := by rw [hAlen]
    rw [h1, ← List.drop_drop, List.drop_left]
    decide
  have hbeq : (((backupKey N ts).drop ((backupKey N ts).length - sqlGzEnc.length)) == sqlGzEnc)
      = false := by
    apply beq_eq_false_iff_ne.mpr
    intro heq
    have heq10 := congrArg (List.drop 10) heq
    rw [List.drop_drop] at heq10
    have h3 : (backupKey N ts).length - sqlGzEnc.length + 10 = N.length + 25 := by
      rw [hsl, h11]
      omega
    rw [h3, hd6] at heq10
    exact absurd heq10 (by decide)
  have henc : stripSfx (backupKey N ts) sqlGzEnc = none := by
    unfold stripSfx
    rw [hbeq]
    simp
  -- stripping `.sql.gz` leaves `N ++ "_" ++ ts`
  have h4 : (backupKey N ts).length - sqlGz.length = (N ++ '_' :: ts).length := by
    rw [hsl, h7, hAlen]
    omega
  have hdp : (backupKey N ts).drop ((backupKey N ts).length - sqlGz.length) = sqlGz := by
    rw [h4, hs, List.drop_left]
  have htk : (backupKey N ts).take ((backupKey N ts).length - sqlGz.length) = N ++ '_' :: ts := by
    rw [h4, hs, List.take_left]
  have hgz : stripSfx (backupKey N ts) sqlGz = some (N ++ '_' :: ts) := by
    unfold stripSfx
    rw [hdp, htk]
    have hc1 : sqlGz.length ≤ (backupKey N ts).length := by rw [hsl, h7]; omega
    simp [hc1]
  -- the greedy split position is exactly |N|
  have hdropA : (N ++ '_' :: ts).drop (N.length + 1) = ts := by
    rw [← List.drop_drop, List.drop_left]
    rfl
  have hok : splitOk (N ++ '_' :: ts) N.length = true := by
    simp [splitOk, List.drop_left, List.take_left, hN, hdropA, isTs, hts]
  have hmax : ∀ k, N.length < k → k ≤ (N ++ '_' :: ts).length →
      splitOk (N ++ '_' :: ts) k = false := by
    intro k hk1 _
    have h8 : k = (N.length + 1) + (k - (N.length + 1)) := by omega
    have h6 : (N ++ '_' :: ts).drop k = ts.drop (k - (N.length + 1)) := by
      conv_lhs => rw [h8]
      rw [← List.drop_drop, hdropA]
    have hhd : (N ++ '_' :: ts)[k]? ≠ some '_' := by
      rw [← List.head?_drop, h6]
      intro hcontra
      have hm : '_' ∈ ts.drop (k - (N.length + 1)) := by
        cases hcc : ts.drop (k - (N.length + 1)) with
        | nil => rw [hcc] at hcontra; simp at hcontra
        | cons c cs =>
          rw [hcc] at hcontra
          have hceq : c = '_' := by simpa using hcontra
          rw [hceq] at hcc ⊢
          exact List.mem_cons_self '_' cs
      exact hnous (List.drop_subset _ _ hm)
    simp [splitOk, hhd]
  have hbs : bestSplit (N ++ '_' :: ts) (N ++ '_' :: ts).length = some N.length :=
    bestSplit_eq_of_max (N ++ '_' :: ts) (N ++ '_' :: ts).length N.length hok
      (by rw [hAlen]; omega) hmax
  have hcore : reMatchCore (N ++ '_' :: ts) = some (N, ts) := by
    unfold reMatchCore
    rw [hbs]
    show some ((N ++ '_' :: ts).take N.length, (N ++ '_' :: ts).drop (N.length + 1))
        = some (N, ts)
    rw [List.take_left, hdropA]
  simp only [filename_pattern]
  rw [hstrip, henc, hgz]
  exact hcore

/-- Claim C5, counterexample to the claim as stated: `"a\nb"` contains no
underscore (hence certainly no ambiguous `_<timestamp>` sequence), yet the
constructed key fails to match at all — Python's `.` does not cross a
newline — so extraction does not yield `N` back. -/
theorem c5_counterexample :
    ("a\nb".data.contains '_') = false
    ∧ tsCompact "2024-01-01T000000Z".data = true
    ∧ filename_pattern (backupKey "a\nb".data "2024-01-01T000000Z".data) = none := by
  decide

theorem c5_witness :
    (noNL "orders".data = true ∧ tsCompact "2024-06-01T120000Z".data = true)
    ∧ filename_pattern (backupKey "orders".data "2024-06-01T120000Z".data)
        = some ("orders".data, "2024-06-01T120000Z".data) :=
  ⟨by decide,
   c5_roundtrip_extraction "orders".data "2024-06-01T120000Z".data (by decide) (by decide)⟩

-- concrete evaluations of the regex model, mirroring spot checks of
-- `filename_pattern` against the Python regex engine
example : filename_pattern "orders_2024-01-01T000000Z.sql.gz".data
    = some ("orders".data, "2024-01-01T000000Z".data) := by decide
example : filename_pattern "orders_2024-01-01T00:00:00Z.sql.gz.enc".data
    = some ("orders".data, "2024-01-01T00:00:00Z".data) := by decide
example : filename_pattern "notes.txt".data = none := by decide
example : filename_pattern "a_2020-05-05T121212Z_2024-01-01T000000Z.sql.gz".data
    = some ("a_2020-05-05T121212Z".data, "2024-01-01T000000Z".data) := by decide

end PgBackup
